import Mathlib

/-!
Verification development for the social backend: a shallow embedding of the
persisted (knex/sqlite) routers (`routes/auth.js`, the friends router, the
posts router) together with the query-string parsing helpers, and proofs of
the behavioural properties stated in the specification.

Modelling conventions:
* SQL rows are Lean structures, tables are lists, the database is one record.
* Machine timestamps (ISO-8601 strings in the code) are modelled as `Int`
  millisecond values; converting a timestamp to ISO and back is injective and
  monotone, so ordering and equality of `sentAt` values are preserved.
* Query-string values are modelled as `QueryVal`: absent, a canonical integer
  numeral (where JS `Number` and `parseInt` agree), or a string with no
  leading integer (where both yield NaN).
* JS `null` for a text field is identified with the empty string.
* `bcrypt.hash` with its fixed cost is modelled as an injective tagging
  function, `bcrypt.compare` as equality with that tag.
-/

namespace Social

/-- Query-string value: absent, a canonical integer numeral, or a
non-numeric string (no leading integer, so both Number and parseInt give NaN). -/
inductive QueryVal where
  | absent
  | nonNumeric
  | num (n : Int)
deriving DecidableEq

/-- JS parseInt(v, 10) on a query value: NaN becomes none. -/
def parseIntJs : QueryVal → Option Int
  | .absent => none
  | .nonNumeric => none
  | .num n => some n

/-- parseLimit from the posts router: NaN or non-positive values fall back
to 20, and the result is clamped to at most 100.  The router invokes it as
parseLimit(req.query.limit ?? 20), so an absent value also yields 20. -/
def parseLimit (v : QueryVal) : Int :=
  match parseIntJs v with
  | none => 20
  | some n => if n ≤ 0 then 20 else min n 100

/-- parseOffset from the posts router: NaN or negative values fall back to 0. -/
def parseOffset (v : QueryVal) : Int :=
  match parseIntJs v with
  | none => 0
  | some n => if n < 0 then 0 else n

/-- The friends router parses limit inline:
Number.isNaN(Number(limit)) ? 20 : parseInt(limit, 10); the destructuring
default supplies 20 when the parameter is absent.  No clamping is applied. -/
def friendsLimit : QueryVal → Int
  | .absent => 20
  | .nonNumeric => 20
  | .num n => n

/-- The friends router parses offset inline with default 0; no flooring. -/
def friendsOffset : QueryVal → Int
  | .absent => 0
  | .nonNumeric => 0
  | .num n => n

/-- JS truthiness test for an optional string: undefined and the empty string
are falsy. -/
def jsFalsyStr : Option String → Bool
  | none => true
  | some s => s == ""

/-- SQL LIMIT/OFFSET pagination with sqlite semantics: a negative OFFSET acts
as 0, a negative LIMIT means no limit. -/
def sqlPage (l : List α) (lim off : Int) : List α :=
  if lim < 0 then l.drop off.toNat else (l.drop off.toNat).take lim.toNat

/-- JS Array.prototype.slice with start and stop indices (negative indices
count from the end, both are clamped to the array bounds). -/
def jsSlice (l : List α) (start stop : Int) : List α :=
  let len : Int := l.length
  let s := if start < 0 then max (len + start) 0 else min start len
  let e := if stop < 0 then max (len + stop) 0 else min stop len
  (l.drop s.toNat).take (e.toNat - s.toNat)

section Sorting

variable {α : Type} {β : Type} [LinearOrder β]

/-- Ordering relation used to model ORDER BY key DESC and the stable JS
sort with comparator (b.key - a.key). -/
def descRel (k : α → β) (a b : α) : Prop := k b ≤ k a

/-- Ordering relation used to model ORDER BY key ASC. -/
def ascRel (k : α → β) (a b : α) : Prop := k a ≤ k b

instance (k : α → β) : DecidableRel (descRel k) :=
  fun a b => inferInstanceAs (Decidable (k b ≤ k a))

instance (k : α → β) : DecidableRel (ascRel k) :=
  fun a b => inferInstanceAs (Decidable (k a ≤ k b))

instance (k : α → β) : IsTotal α (descRel k) := ⟨fun a b => le_total (k b) (k a)⟩

instance (k : α → β) : IsTrans α (descRel k) :=
  ⟨fun _ _ _ hab hbc => le_trans hbc hab⟩

instance (k : α → β) : IsTotal α (ascRel k) := ⟨fun a b => le_total (k a) (k b)⟩

instance (k : α → β) : IsTrans α (ascRel k) :=
  ⟨fun _ _ _ hab hbc => le_trans hab hbc⟩

/-- Stable sort, key descending: both sqlite ORDER BY (made deterministic)
and the ES2019 stable Array.sort are modelled by insertion sort. -/
def sortDesc (k : α → β) (l : List α) : List α := l.insertionSort (descRel k)

/-- Stable sort, key ascending. -/
def sortAsc (k : α → β) (l : List α) : List α := l.insertionSort (ascRel k)

/-- The sublist of elements with one fixed key value. -/
def keyFilter (k : α → β) (K : β) (l : List α) : List α :=
  l.filter fun e => decide (k e = K)

end Sorting


/-- Basic-latin lowercase mapping of one character, the common core of JS
String.prototype.toLowerCase and sqlite lower() on the usernames involved
(code points 65 to 90 shift by 32, everything else is unchanged). -/
def lowerChar (c : Char) : Char :=
  if 65 ≤ c.toNat ∧ c.toNat ≤ 90 then Char.ofNat (c.toNat + 32) else c

/-- Lowercase a whole string (character-wise, length preserving). -/
def lowerStr (s : String) : String := String.mk (s.data.map lowerChar)

/-- JS String.prototype.trim: strip leading and trailing whitespace,
modelled on the character list. -/
def jsTrim (s : String) : String :=
  String.mk (((s.data.dropWhile Char.isWhitespace).reverse.dropWhile
    Char.isWhitespace).reverse)

/-- A user row of the users table. -/
structure User where
  id : Nat
  username : String
  passwordHash : String
  profileImage : String
  status : String
deriving DecidableEq

/-- A row of the friendships table (directed edge). -/
structure Friendship where
  id : Nat
  userId : Nat
  friendUserId : Nat
  status : String
  mutualFriends : Nat
deriving DecidableEq

/-- A row of the friend_suggestions table. -/
structure FriendSuggestion where
  id : Nat
  userId : Nat
  suggestedUserId : Nat
  mutualFriends : Nat
  createdAt : Int
deriving DecidableEq

/-- A row of the friend_requests table. -/
structure FriendRequest where
  id : Nat
  senderUserId : Nat
  receiverUserId : Nat
  mutualFriends : Nat
  status : String
  createdAt : Int
deriving DecidableEq

/-- A row of the posts table. -/
structure Post where
  id : Nat
  userId : Nat
  text : String
  createdAt : Int
deriving DecidableEq

/-- A row of the comments table. -/
structure Comment where
  id : Nat
  postId : Nat
  userId : Nat
  text : String
  createdAt : Int
deriving DecidableEq

/-- A row of the post_likes or comment_likes table: itemId is the post id,
respectively the comment id. -/
structure LikeRow where
  itemId : Nat
  userId : Nat
  createdAt : Int
deriving DecidableEq

/-- The relational store, with the id counter the engine uses for inserts. -/
structure DB where
  users : List User
  friendships : List Friendship
  friendSuggestions : List FriendSuggestion
  friendRequests : List FriendRequest
  posts : List Post
  comments : List Comment
  postLikes : List LikeRow
  commentLikes : List LikeRow
  nextId : Nat
deriving DecidableEq

/-- An error envelope: HTTP status plus the code and message fields of the
error object in the JSON body. -/
structure ErrObj where
  status : Nat
  code : String
  message : String
deriving DecidableEq

/-- Whether an Except value is a success. -/
def exceptIsOk : Except ErrObj α → Bool
  | .ok _ => true
  | .error _ => false

instance {ε σ : Type} [DecidableEq ε] [DecidableEq σ] : DecidableEq (Except ε σ) := fun
  | .ok a, .ok b =>
    if h : a = b then .isTrue (congrArg Except.ok h)
    else .isFalse fun he => h (Except.ok.inj he)
  | .ok _, .error _ => .isFalse Except.noConfusion
  | .error _, .ok _ => .isFalse Except.noConfusion
  | .error e, .error f =>
    if h : e = f then .isTrue (congrArg Except.error h)
    else .isFalse fun he => h (Except.error.inj he)

/-- Model of bcrypt.hash with its fixed cost factor: an injective tag. -/
def hashPassword (p : String) : String := "bcrypt$" ++ p

/-- Model of bcrypt.compare. -/
def checkPassword (p h : String) : Bool := h == hashPassword p

/-- The public view plus token payload returned by register and login; the
token is a signed credential carrying exactly these two fields. -/
structure AuthSuccess where
  userId : Nat
  username : String
deriving DecidableEq

/-- Result of a state-changing auth operation. -/
structure RegisterResult where
  db : DB
  resp : Except ErrObj AuthSuccess
deriving DecidableEq

/-- POST /auth/register from routes/auth.js: requires both fields, username
at least 3 characters after trim, password at least 6 characters; rejects a
case-insensitive username match with 409; otherwise inserts the normalized
user and returns its id and username. -/
def register (db : DB) (username password : String) : RegisterResult :=
  if username = "" ∨ password = "" then
    ⟨db, .error ⟨400, "validation_error", "Username and password are required"⟩⟩
  else if (jsTrim username).length < 3 then
    ⟨db, .error ⟨400, "validation_error", "Username must be at least 3 characters"⟩⟩
  else if password.length < 6 then
    ⟨db, .error ⟨400, "validation_error", "Password must be at least 6 characters"⟩⟩
  else
    match db.users.find? fun u => lowerStr u.username == lowerStr (jsTrim username) with
    | some _ => ⟨db, .error ⟨409, "username_taken", "Username is already taken"⟩⟩
    | none =>
      let newUser : User :=
        ⟨db.nextId, lowerStr (jsTrim username), hashPassword password, "👤", "online"⟩
      ⟨{ db with users := db.users ++ [newUser], nextId := db.nextId + 1 },
        .ok ⟨newUser.id, newUser.username⟩⟩

/-- POST /auth/login from routes/auth.js: requires both fields, looks the
normalized username up exactly, and answers any miss or hash mismatch with
one and the same 401 error. -/
def login (db : DB) (username password : String) : Except ErrObj AuthSuccess :=
  if username = "" ∨ password = "" then
    .error ⟨400, "validation_error", "Username and password are required"⟩
  else
    match db.users.find? fun u => u.username == lowerStr (jsTrim username) with
    | none => .error ⟨401, "invalid_credentials", "Invalid username or password"⟩
    | some user =>
      if user.passwordHash = "" then
        .error ⟨401, "invalid_credentials", "Invalid username or password"⟩
      else if checkPassword password user.passwordHash then
        .ok ⟨user.id, user.username⟩
      else
        .error ⟨401, "invalid_credentials", "Invalid username or password"⟩

/-- toRelativeTime from utils/time.js, on an always-present, always-valid
timestamp (so the two null guards of the source never fire): floor division
of the millisecond difference, rendered at minute, hour or day granularity. -/
def toRelativeTime (now t : Int) : String :=
  let diffMs := now - t
  let diffMinutes := diffMs.fdiv 60000
  let diffHours := diffMs.fdiv 3600000
  let diffDays := diffMs.fdiv 86400000
  if diffMinutes < 1 then "just now"
  else if diffMinutes < 60 then toString diffMinutes ++ "m ago"
  else if diffHours < 24 then toString diffHours ++ "h ago"
  else toString diffDays ++ "d ago"

/-- Is pre a prefix of the second list? -/
def prefixOfL : List Char → List Char → Bool
  | [], _ => true
  | _ :: _, [] => false
  | a :: as, b :: bs => if a = b then prefixOfL as bs else false

/-- Does the second list contain sub as a contiguous run? -/
def infixOfL (sub : List Char) : List Char → Bool
  | [] => prefixOfL sub []
  | b :: bs => if prefixOfL sub (b :: bs) then true else infixOfL sub bs

/-- SQL LIKE with a leading and trailing percent wildcard: substring test
(the interpolated search term itself is taken literally). -/
def containsSub (s term : String) : Bool := infixOfL term.data s.data

/-- The pagination echo of every list response. -/
structure Pagination where
  total : Nat
  limit : Int
  offset : Int
deriving DecidableEq

/-- A list response envelope. -/
structure Page (α : Type) where
  data : List α
  pagination : Pagination
deriving DecidableEq

/-- One element of the GET /friends data array. -/
structure FriendEntry where
  id : Nat
  username : String
  profileImage : String
  status : Option String
  mutualFriends : Nat
deriving DecidableEq

/-- The joined and filtered row set of GET /friends: friendships of the
viewer inner-joined to users, optionally filtered by status equality and by
case-insensitive substring match on the friend username (both filters are
skipped for an absent or empty, i.e. falsy, parameter). -/
def friendsFiltered (db : DB) (viewerId : Nat) (status? search? : Option String) :
    List (Friendship × User) :=
  let joined := db.friendships.filterMap fun f =>
    if f.userId = viewerId then
      (db.users.find? fun u => u.id == f.friendUserId).map fun u => (f, u)
    else none
  let byStatus := match status? with
    | some s => if s = "" then joined else joined.filter fun fu => fu.1.status == s
    | none => joined
  match search? with
  | some s =>
    if s = "" then byStatus
    else byStatus.filter fun fu => containsSub (lowerStr fu.2.username) (lowerStr (jsTrim s))
  | none => byStatus

/-- GET /friends: count the filtered set, then order by username ascending
and paginate in SQL. -/
def listFriends (db : DB) (viewerId : Nat) (status? search? : Option String)
    (vlimit voffset : QueryVal) : Page FriendEntry :=
  let limitNum := friendsLimit vlimit
  let offsetNum := friendsOffset voffset
  let filtered := friendsFiltered db viewerId status? search?
  let rows := sqlPage (sortAsc (fun fu => fu.2.username) filtered) limitNum offsetNum
  { data := rows.map fun fu =>
      ⟨fu.1.id, fu.2.username, fu.2.profileImage,
        (if fu.1.status = "" then none else some fu.1.status), fu.1.mutualFriends⟩,
    pagination := ⟨filtered.length, limitNum, offsetNum⟩ }

/-- One element of the GET /friends/suggestions data array. -/
structure SuggestionEntry where
  id : Nat
  username : String
  profileImage : String
  mutualFriends : Nat
deriving DecidableEq

/-- The joined row set of GET /friends/suggestions. -/
def suggestionsJoined (db : DB) (viewerId : Nat) : List (FriendSuggestion × User) :=
  db.friendSuggestions.filterMap fun fs =>
    if fs.userId = viewerId then
      (db.users.find? fun u => u.id == fs.suggestedUserId).map fun u => (fs, u)
    else none

/-- GET /friends/suggestions: count, order by created_at descending,
paginate in SQL. -/
def listSuggestions (db : DB) (viewerId : Nat) (vlimit voffset : QueryVal) :
    Page SuggestionEntry :=
  let limitNum := friendsLimit vlimit
  let offsetNum := friendsOffset voffset
  let joined := suggestionsJoined db viewerId
  let rows := sqlPage (sortDesc (fun su => su.1.createdAt) joined) limitNum offsetNum
  { data := rows.map fun su =>
      ⟨su.1.id, su.2.username, su.2.profileImage, su.1.mutualFriends⟩,
    pagination := ⟨joined.length, limitNum, offsetNum⟩ }

/-- One element of the GET /friends/requests data array; sentAt is the ISO
rendering of the created_at timestamp. -/
structure RequestEntry where
  id : Nat
  username : String
  profileImage : String
  mutualFriends : Nat
  type : String
  sentAt : Int
  relativeTimestamp : String
deriving DecidableEq

/-- Incoming requests of the viewer, joined to the sender user row and
enriched; unsorted fetch. -/
def incomingRequests (db : DB) (now : Int) (viewerId : Nat) : List RequestEntry :=
  db.friendRequests.filterMap fun fr =>
    if fr.receiverUserId = viewerId then
      (db.users.find? fun u => u.id == fr.senderUserId).map fun u =>
        ⟨fr.id, u.username, u.profileImage, fr.mutualFriends, "incoming",
          fr.createdAt, toRelativeTime now fr.createdAt⟩
    else none

/-- Outgoing requests of the viewer, joined to the receiver user row and
enriched; unsorted fetch. -/
def outgoingRequests (db : DB) (now : Int) (viewerId : Nat) : List RequestEntry :=
  db.friendRequests.filterMap fun fr =>
    if fr.senderUserId = viewerId then
      (db.users.find? fun u => u.id == fr.receiverUserId).map fun u =>
        ⟨fr.id, u.username, u.profileImage, fr.mutualFriends, "outgoing",
          fr.createdAt, toRelativeTime now fr.createdAt⟩
    else none

/-- GET /friends/requests as the router computes it: each included direction
is fetched ORDER BY created_at DESC, the two fetches are concatenated, the
concatenation is re-sorted by sentAt descending with the stable JS sort, and
offset and limit are applied to the merged list with Array.slice; total is
the merged length. -/
def listRequests (db : DB) (now : Int) (viewerId : Nat) (type? : Option String)
    (vlimit voffset : QueryVal) : Page RequestEntry :=
  let limitNum := friendsLimit vlimit
  let offsetNum := friendsOffset voffset
  let includeIncoming := jsFalsyStr type? || type? == some "incoming"
  let includeOutgoing := jsFalsyStr type? || type? == some "outgoing"
  let aggregated :=
    (if includeIncoming then sortDesc (fun e => e.sentAt) (incomingRequests db now viewerId)
      else [])
    ++
    (if includeOutgoing then sortDesc (fun e => e.sentAt) (outgoingRequests db now viewerId)
      else [])
  let sorted := sortDesc (fun e => e.sentAt) aggregated
  { data := jsSlice sorted offsetNum (offsetNum + limitNum),
    pagination := ⟨sorted.length, limitNum, offsetNum⟩ }

/-- Modelled from the specification text of ListRequests, for comparison
with the router: fetch all incoming and all outgoing requests, concatenate,
sort the combined list by sentAt descending, and only then apply offset and
limit; total is the size of the merged set. -/
def specListRequests (db : DB) (now : Int) (viewerId : Nat)
    (vlimit voffset : QueryVal) : Page RequestEntry :=
  let limitNum := friendsLimit vlimit
  let offsetNum := friendsOffset voffset
  let merged := sortDesc (fun e => e.sentAt)
    (incomingRequests db now viewerId ++ outgoingRequests db now viewerId)
  { data := jsSlice merged offsetNum (offsetNum + limitNum),
    pagination := ⟨merged.length, limitNum, offsetNum⟩ }

/-- Result of POST /friends/request. -/
structure SendResult where
  db : DB
  resp : Except ErrObj RequestEntry
deriving DecidableEq

/-- POST /friends/request from the friends router: requires a non-blank
username, rejects sending to oneself, then looks the normalized target up
and checks, in order, friendship sender to target, request sender to
target, request target to sender; only then inserts one pending request row
with mutual_friends 0 and answers with type outgoing. -/
def sendFriendRequest (db : DB) (now : Int) (senderId : Nat)
    (senderUsername uname : String) : SendResult :=
  if jsTrim uname = "" then
    ⟨db, .error ⟨400, "validation_error", "Username is required"⟩⟩
  else
    let normalized := lowerStr (jsTrim uname)
    if normalized = senderUsername then
      ⟨db, .error ⟨400, "validation_error", "Cannot send friend request to yourself"⟩⟩
    else
      match db.users.find? fun u => u.username == normalized with
      | none => ⟨db, .error ⟨404, "user_not_found", "Target user was not found"⟩⟩
      | some target =>
        if (db.friendships.find? fun f =>
            f.userId == senderId && f.friendUserId == target.id).isSome then
          ⟨db, .error ⟨400, "already_friends", "You are already friends with this user"⟩⟩
        else if (db.friendRequests.find? fun fr =>
            fr.senderUserId == senderId && fr.receiverUserId == target.id).isSome then
          ⟨db, .error ⟨400, "request_already_sent",
            "Friend request has already been sent to this user"⟩⟩
        else if (db.friendRequests.find? fun fr =>
            fr.senderUserId == target.id && fr.receiverUserId == senderId).isSome then
          ⟨db, .error ⟨400, "request_exists",
            "This user has already sent you a friend request"⟩⟩
        else
          ⟨{ db with
              friendRequests := db.friendRequests ++
                [⟨db.nextId, senderId, target.id, 0, "pending", now⟩],
              nextId := db.nextId + 1 },
            .ok ⟨db.nextId, target.username, target.profileImage, 0, "outgoing",
              now, toRelativeTime now now⟩⟩

/-- Does a like row for this item and user match? -/
def matchRow (itemId userId : Nat) (lr : LikeRow) : Bool :=
  lr.itemId == itemId && lr.userId == userId

/-- Does a like row for (item, user) exist (the .first() existence check)? -/
def hasLike (rows : List LikeRow) (itemId userId : Nat) : Bool :=
  rows.any (matchRow itemId userId)

/-- Grouped COUNT of like rows for one item id. -/
def countLikes (rows : List LikeRow) (itemId : Nat) : Nat :=
  (rows.filter fun lr => lr.itemId == itemId).length

/-- The shared toggle step of both like endpoints: delete the (item, user)
rows if one exists, insert one otherwise. -/
def toggleLikeRows (rows : List LikeRow) (itemId userId : Nat) (now : Int) :
    List LikeRow :=
  if hasLike rows itemId userId then
    rows.filter fun lr => !matchRow itemId userId lr
  else
    rows ++ [⟨itemId, userId, now⟩]

/-- Result of a toggle endpoint: the new store plus liked and likes. -/
structure ToggleResult where
  db : DB
  resp : Except ErrObj (Bool × Nat)
deriving DecidableEq

/-- POST /posts/:postId/like from the posts router: 404 when the post is
absent; otherwise toggle the (post, user) like row, then re-count the post
total from the store after the mutation. -/
def togglePostLike (db : DB) (now : Int) (userId postId : Nat) : ToggleResult :=
  if (db.posts.find? fun p => p.id == postId).isNone then
    ⟨db, .error ⟨404, "not_found", "Post not found"⟩⟩
  else
    let liked := !hasLike db.postLikes postId userId
    let db' := { db with postLikes := toggleLikeRows db.postLikes postId userId now }
    ⟨db', .ok (liked, countLikes db'.postLikes postId)⟩

/-- POST /posts/:postId/comments/:commentId/like: 404 unless a comment with
this id belongs to this post; otherwise the same toggle on comment_likes. -/
def toggleCommentLike (db : DB) (now : Int) (userId postId commentId : Nat) :
    ToggleResult :=
  if (db.comments.find? fun c => c.id == commentId && c.postId == postId).isNone then
    ⟨db, .error ⟨404, "not_found", "Post or comment not found"⟩⟩
  else
    let liked := !hasLike db.commentLikes commentId userId
    let db' := { db with commentLikes := toggleLikeRows db.commentLikes commentId userId now }
    ⟨db', .ok (liked, countLikes db'.commentLikes commentId)⟩

/-- A rendered comment of the feed. -/
structure CommentView where
  id : Nat
  username : String
  profileImage : String
  text : String
  timestamp : Int
  relativeTimestamp : String
  likes : Nat
  likedByCurrentUser : Bool
deriving DecidableEq

/-- A rendered post of the feed. -/
structure PostView where
  id : Nat
  username : String
  profileImage : String
  timestamp : Int
  relativeTimestamp : String
  text : String
  likes : Nat
  likedByCurrentUser : Bool
  comments : List CommentView
deriving DecidableEq

/-- The posts-to-users inner join of the feed query. -/
def feedJoinedPosts (db : DB) : List (Post × User) :=
  db.posts.filterMap fun p =>
    (db.users.find? fun u => u.id == p.userId).map fun u => (p, u)

/-- The comments-to-users inner join, ordered by created_at ascending, from
which the feed groups comments by post id.  The router restricts the fetch
and the like lookups to the ids on the current page with whereIn; filtering
the full join per page post id yields the same groups, and the per-id like
count and membership are unaffected by the whereIn restriction. -/
def feedSortedComments (db : DB) : List (Comment × User) :=
  sortAsc (fun cu => cu.1.createdAt)
    (db.comments.filterMap fun c =>
      (db.users.find? fun u => u.id == c.userId).map fun u => (c, u))

/-- Render one comment with its like count and viewer membership. -/
def renderComment (db : DB) (now : Int) (viewerId : Nat) (cu : Comment × User) :
    CommentView :=
  ⟨cu.1.id, cu.2.username, cu.2.profileImage, cu.1.text, cu.1.createdAt,
    toRelativeTime now cu.1.createdAt,
    countLikes db.commentLikes cu.1.id, hasLike db.commentLikes cu.1.id viewerId⟩

/-- Render one post of the page with its likes and grouped comments. -/
def renderPost (db : DB) (now : Int) (viewerId : Nat) (pu : Post × User) : PostView :=
  ⟨pu.1.id, pu.2.username, pu.2.profileImage, pu.1.createdAt,
    toRelativeTime now pu.1.createdAt, pu.1.text,
    countLikes db.postLikes pu.1.id, hasLike db.postLikes pu.1.id viewerId,
    ((feedSortedComments db).filter fun cu => cu.1.postId == pu.1.id).map
      (renderComment db now viewerId)⟩

/-- GET /posts: total over all posts unconditionally, page of the joined
posts ordered by created_at descending, each rendered with batched like
counts, viewer like membership and grouped comments. -/
def listFeed (db : DB) (now : Int) (viewerId : Nat) (vlimit voffset : QueryVal) :
    Page PostView :=
  let limitNum := parseLimit vlimit
  let offsetNum := parseOffset voffset
  let rows := sqlPage (sortDesc (fun pu => pu.1.createdAt) (feedJoinedPosts db))
    limitNum offsetNum
  { data := rows.map (renderPost db now viewerId),
    pagination := ⟨db.posts.length, limitNum, offsetNum⟩ }

/-- Result of POST /posts. -/
structure CreatePostResult where
  db : DB
  resp : Except ErrObj PostView
deriving DecidableEq

/-- POST /posts from the posts router: text must be non-blank after trim,
the length check is applied to the untrimmed input, the trimmed text is
inserted, and the fresh post is re-selected and rendered with empty like
and comment maps.  A failing author re-join (impossible under referential
integrity) falls into the catch-all 500. -/
def createPost (db : DB) (now : Int) (userId : Nat) (text : String) :
    CreatePostResult :=
  if jsTrim text = "" then
    ⟨db, .error ⟨400, "validation_error", "Post text is required"⟩⟩
  else if 5000 < text.length then
    ⟨db, .error ⟨400, "validation_error", "Post text must be 5000 characters or less"⟩⟩
  else
    let post : Post := ⟨db.nextId, userId, jsTrim text, now⟩
    let db' := { db with posts := db.posts ++ [post], nextId := db.nextId + 1 }
    match db.users.find? fun u => u.id == userId with
    | none => ⟨db', .error ⟨500, "internal_server_error", "Failed to create post"⟩⟩
    | some u =>
      ⟨db', .ok ⟨post.id, u.username, u.profileImage, now, toRelativeTime now now,
        jsTrim text, 0, false, []⟩⟩

/-- An empty store. -/
def emptyDB : DB := ⟨[], [], [], [], [], [], [], [], 1⟩

/-- A small concrete store used by the witnesses: two users, a friendship,
a suggestion, two requests, two posts, one comment and some likes. -/
def sampleDB : DB :=
  { users :=
      [⟨1, "alex", hashPassword "password", "👨", "online"⟩,
       ⟨2, "sarah", hashPassword "password", "👩", "online"⟩,
       ⟨3, "mike", hashPassword "password", "👨", "offline"⟩],
    friendships := [⟨10, 1, 3, "offline", 2⟩],
    friendSuggestions := [⟨20, 1, 2, 4, 500⟩],
    friendRequests := [⟨30, 2, 1, 1, "pending", 1000⟩, ⟨31, 1, 3, 0, "pending", 2000⟩],
    posts := [⟨40, 1, "hello", 100⟩, ⟨41, 2, "sunset", 200⟩],
    comments := [⟨50, 40, 2, "nice", 150⟩],
    postLikes := [⟨40, 2, 160⟩, ⟨41, 1, 210⟩],
    commentLikes := [⟨50, 1, 170⟩],
    nextId := 100 }

/-- A post body of exactly 5000 characters. -/
def text5000 : String := String.mk (List.replicate 5000 'x')

/-- A post body of exactly 5001 characters. -/
def text5001 : String := String.mk (List.replicate 5001 'x')

/-- The check cascade of SendFriendRequest at the given arguments: each
outcome is characterized by the checks strictly before it, so the
conjunction pins the order self-check, target lookup, friendship, same
direction request, reverse direction request, insert. -/
def SendCascadeSpec (db : DB) (now : Int) (senderId : Nat)
    (senderUsername uname : String) : Prop :=
  (lowerStr (jsTrim uname) = senderUsername →
    sendFriendRequest db now senderId senderUsername uname =
      ⟨db, .error ⟨400, "validation_error", "Cannot send friend request to yourself"⟩⟩)
  ∧ (lowerStr (jsTrim uname) ≠ senderUsername →
      db.users.find? (fun u => u.username == lowerStr (jsTrim uname)) = none →
      sendFriendRequest db now senderId senderUsername uname =
        ⟨db, .error ⟨404, "user_not_found", "Target user was not found"⟩⟩)
  ∧ ∀ target : User, lowerStr (jsTrim uname) ≠ senderUsername →
      db.users.find? (fun u => u.username == lowerStr (jsTrim uname)) = some target →
      (((db.friendships.find? fun f =>
          f.userId == senderId && f.friendUserId == target.id).isSome →
        sendFriendRequest db now senderId senderUsername uname =
          ⟨db, .error ⟨400, "already_friends", "You are already friends with this user"⟩⟩)
      ∧ ((db.friendships.find? fun f =>
            f.userId == senderId && f.friendUserId == target.id) = none →
         (db.friendRequests.find? fun fr =>
            fr.senderUserId == senderId && fr.receiverUserId == target.id).isSome →
        sendFriendRequest db now senderId senderUsername uname =
          ⟨db, .error ⟨400, "request_already_sent",
            "Friend request has already been sent to this user"⟩⟩)
      ∧ ((db.friendships.find? fun f =>
            f.userId == senderId && f.friendUserId == target.id) = none →
         (db.friendRequests.find? fun fr =>
            fr.senderUserId == senderId && fr.receiverUserId == target.id) = none →
         (db.friendRequests.find? fun fr =>
            fr.senderUserId == target.id && fr.receiverUserId == senderId).isSome →
        sendFriendRequest db now senderId senderUsername uname =
          ⟨db, .error ⟨400, "request_exists",
            "This user has already sent you a friend request"⟩⟩)
      ∧ ((db.friendships.find? fun f =>
            f.userId == senderId && f.friendUserId == target.id) = none →
         (db.friendRequests.find? fun fr =>
            fr.senderUserId == senderId && fr.receiverUserId == target.id) = none →
         (db.friendRequests.find? fun fr =>
            fr.senderUserId == target.id && fr.receiverUserId == senderId) = none →
        sendFriendRequest db now senderId senderUsername uname =
          ⟨{ db with
              friendRequests := db.friendRequests ++
                [⟨db.nextId, senderId, target.id, 0, "pending", now⟩],
              nextId := db.nextId + 1 },
            .ok ⟨db.nextId, target.username, target.profileImage, 0, "outgoing",
              now, toRelativeTime now now⟩⟩))

/-- The pagination law at the given arguments: for each list endpoint the
page length is the limit truncated by total minus offset, and the reported
total does not depend on the limit or offset parameters. -/
def PaginationFormulaSpec (db : DB) (now : Int) (viewer : Nat)
    (status? search? type? : Option String) (l o : Int) (vl vo : QueryVal) : Prop :=
  ((listFriends db viewer status? search? (.num l) (.num o)).data.length
      = min l.toNat
        ((listFriends db viewer status? search? (.num l) (.num o)).pagination.total - o.toNat)
    ∧ (listFriends db viewer status? search? vl vo).pagination.total
      = (listFriends db viewer status? search? (.num l) (.num o)).pagination.total)
  ∧ ((listSuggestions db viewer (.num l) (.num o)).data.length
      = min l.toNat ((listSuggestions db viewer (.num l) (.num o)).pagination.total - o.toNat)
    ∧ (listSuggestions db viewer vl vo).pagination.total
      = (listSuggestions db viewer (.num l) (.num o)).pagination.total)
  ∧ ((listRequests db now viewer type? (.num l) (.num o)).data.length
      = min l.toNat
        ((listRequests db now viewer type? (.num l) (.num o)).pagination.total - o.toNat)
    ∧ (listRequests db now viewer type? vl vo).pagination.total
      = (listRequests db now viewer type? (.num l) (.num o)).pagination.total)
  ∧ ((listFeed db now viewer (.num l) (.num o)).data.length
      = min l.toNat ((listFeed db now viewer (.num l) (.num o)).pagination.total - o.toNat)
    ∧ (listFeed db now viewer vl vo).pagination.total
      = (listFeed db now viewer (.num l) (.num o)).pagination.total)

namespace SortingFacts

variable {α : Type} {β : Type} [LinearOrder β]

theorem length_sortDesc (k : α → β) (l : List α) :
    (sortDesc k l).length = l.length :=
  List.length_insertionSort _ l

theorem length_sortAsc (k : α → β) (l : List α) :
    (sortAsc k l).length = l.length :=
  List.length_insertionSort _ l

theorem sortDesc_sorted (k : α → β) (l : List α) :
    List.Sorted (descRel k) (sortDesc k l) :=
  List.sorted_insertionSort _ l

theorem keyFilter_orderedInsert (k : α → β) (K : β) (a : α) (l : List α) :
    keyFilter k K (l.orderedInsert (descRel k) a) =
      if k a = K then a :: keyFilter k K l else keyFilter k K l := by
  induction l with
  | nil => by_cases h : k a = K <;> simp [keyFilter, List.orderedInsert, h]
  | cons b bs ih =>
    by_cases hab : descRel k a b
    · by_cases h : k a = K <;>
        simp [keyFilter, List.orderedInsert, hab, h, List.filter_cons]
    · have hlt : k a < k b := lt_of_not_le hab
      by_cases h : k a = K
      · have hbK : ¬ k b = K := by
          intro hbK
          exact absurd (le_of_eq (hbK.trans h.symm)) (not_le.mpr hlt)
        simp only [List.orderedInsert, if_neg hab]
        simp [keyFilter, List.filter_cons, hbK, h] at ih ⊢
        exact ih
      · simp only [List.orderedInsert, if_neg hab]
        by_cases hbK : k b = K <;>
          simp [keyFilter, List.filter_cons, hbK, h] at ih ⊢ <;> exact ih

theorem keyFilter_sortDesc (k : α → β) (K : β) (l : List α) :
    keyFilter k K (sortDesc k l) = keyFilter k K l := by
  induction l with
  | nil => rfl
  | cons a l ih =>
    show keyFilter k K ((sortDesc k l).orderedInsert (descRel k) a) = _
    rw [keyFilter_orderedInsert, ih]
    by_cases h : k a = K <;> simp [keyFilter, List.filter_cons, h]

theorem eq_of_sorted_of_keyFilter (k : α → β) :
    ∀ l₁ l₂ : List α, List.Sorted (descRel k) l₁ → List.Sorted (descRel k) l₂ →
      (∀ K, keyFilter k K l₁ = keyFilter k K l₂) → l₁ = l₂
  | [], [], _, _, _ => rfl
  | [], y :: _, _, _, hK => by
    have := hK (k y)
    simp [keyFilter, List.filter_cons] at this
  | x :: _, [], _, _, hK => by
    have := hK (k x)
    simp [keyFilter, List.filter_cons] at this
  | x :: xs, y :: ys, h₁, h₂, hK => by
    have hys : ∀ e ∈ ys, k e ≤ k y := List.rel_of_sorted_cons h₂
    have hxs : ∀ e ∈ xs, k e ≤ k x := List.rel_of_sorted_cons h₁
    have hxy : k x = k y := by
      rcases lt_trichotomy (k x) (k y) with hlt | heq | hgt
      · have hnil : keyFilter k (k y) (x :: xs) = [] := by
          rw [keyFilter, List.filter_eq_nil_iff]
          intro e he
          simp only [decide_eq_true_eq]
          intro hek
          rcases List.mem_cons.mp he with rfl | he
          · exact absurd (hek ▸ hlt) (lt_irrefl _)
          · exact absurd (hek ▸ hxs e he) (not_le.mpr hlt)
        have hmem : y ∈ keyFilter k (k y) (y :: ys) := by
          simp [keyFilter, List.filter_cons]
        rw [← hK (k y), hnil] at hmem
        exact absurd hmem (List.not_mem_nil y)
      · exact heq
      · have hnil : keyFilter k (k x) (y :: ys) = [] := by
          rw [keyFilter, List.filter_eq_nil_iff]
          intro e he
          simp only [decide_eq_true_eq]
          intro hek
          rcases List.mem_cons.mp he with rfl | he
          · exact absurd (hek ▸ hgt) (lt_irrefl _)
          · exact absurd (hek ▸ hys e he) (not_le.mpr hgt)
        have hmem : x ∈ keyFilter k (k x) (x :: xs) := by
          simp [keyFilter, List.filter_cons]
        rw [hK (k x), hnil] at hmem
        exact absurd hmem (List.not_mem_nil x)
    have hhead := hK (k x)
    rw [keyFilter, keyFilter, List.filter_cons, List.filter_cons,
      if_pos (by simp), if_pos (by simp [hxy])] at hhead
    obtain ⟨hxe, htl⟩ := List.cons.inj hhead
    have hall : ∀ K, keyFilter k K xs = keyFilter k K ys := by
      intro K
      by_cases hKx : K = k x
      · subst hKx; exact htl
      · have := hK K
        rw [keyFilter, keyFilter, List.filter_cons, List.filter_cons,
          if_neg (by simp; exact fun h => hKx h.symm),
          if_neg (by simp [← hxy]; exact fun h => hKx h.symm)] at this
        exact this
    exact hxe ▸
      (eq_of_sorted_of_keyFilter k xs ys h₁.of_cons h₂.of_cons hall) ▸ rfl

/-- Sorting the concatenation of two already-sorted fragments gives the same
list as sorting the unsorted concatenation: the JS in-memory re-sort of the
two per-direction ORDER BY results agrees with one global sort. -/
theorem sortDesc_append_sortDesc (k : α → β) (a b : List α) :
    sortDesc k (sortDesc k a ++ sortDesc k b) = sortDesc k (a ++ b) := by
  apply eq_of_sorted_of_keyFilter k _ _ (sortDesc_sorted k _) (sortDesc_sorted k _)
  intro K
  rw [keyFilter_sortDesc, keyFilter_sortDesc]
  have ha := keyFilter_sortDesc k K a
  have hb := keyFilter_sortDesc k K b
  simp only [keyFilter] at ha hb ⊢
  rw [List.filter_append, List.filter_append, ha, hb]

end SortingFacts

namespace Facts

theorem length_sqlPage (l : List α) (lim off : Int) (h : 0 ≤ lim) :
    (sqlPage l lim off).length = min lim.toNat (l.length - off.toNat) := by
  unfold sqlPage
  rw [if_neg (not_lt.mpr h)]
  simp [List.length_take, List.length_drop]

theorem length_jsSlice (l : List α) (o m : Int) (ho : 0 ≤ o) (hm : 0 ≤ m) :
    (jsSlice l o (o + m)).length = min m.toNat (l.length - o.toNat) := by
  simp only [jsSlice, List.length_take, List.length_drop,
    if_neg (not_lt.mpr ho), if_neg (not_lt.mpr (by omega : (0:Int) ≤ o + m))]
  rw [Int.min_def, Int.min_def]
  split_ifs <;> simp only [Nat.min_def] <;> split_ifs <;> omega

theorem length_filterMap_of_isSome {γ δ : Type} {f : γ → Option δ} :
    ∀ l : List γ, (∀ a ∈ l, (f a).isSome) → (l.filterMap f).length = l.length
  | [], _ => rfl
  | a :: as, h => by
    obtain ⟨b, hb⟩ := Option.isSome_iff_exists.mp (h a (List.mem_cons_self a as))
    rw [List.filterMap_cons, hb, List.length_cons,
      length_filterMap_of_isSome as fun x hx => h x (List.mem_cons_of_mem a hx)]
    rfl

theorem toNat_charOfNat_of_small (n : Nat) (h : n < 55296) :
    (Char.ofNat n).toNat = n := by
  rw [Char.ofNat, dif_pos (Or.inl h)]
  rfl

theorem lowerChar_idem (c : Char) : lowerChar (lowerChar c) = lowerChar c := by
  unfold lowerChar
  by_cases h : 65 ≤ c.toNat ∧ c.toNat ≤ 90
  · rw [if_pos h]
    have ht : (Char.ofNat (c.toNat + 32)).toNat = c.toNat + 32 :=
      toNat_charOfNat_of_small _ (by omega)
    rw [if_neg]
    intro hcon
    rw [ht] at hcon
    omega
  · rw [if_neg h, if_neg h]

theorem lowerStr_idem (s : String) : lowerStr (lowerStr s) = lowerStr s := by
  have h : lowerChar ∘ lowerChar = lowerChar := funext lowerChar_idem
  show String.mk ((s.data.map lowerChar).map lowerChar) = String.mk (s.data.map lowerChar)
  rw [List.map_map, h]

theorem lowerStr_length (s : String) : (lowerStr s).length = s.length := by
  cases s with
  | mk data =>
    show (data.map lowerChar).length = data.length
    simp

theorem filter_not_match_of_not_hasLike (rows : List LikeRow) (i u : Nat)
    (h : hasLike rows i u = false) :
    (rows.filter fun lr => !matchRow i u lr) = rows := by
  rw [List.filter_eq_self]
  intro a ha
  rw [hasLike, List.any_eq_false] at h
  simp [h a ha]

theorem hasLike_filter_not (rows : List LikeRow) (i u : Nat) :
    hasLike (rows.filter fun lr => !matchRow i u lr) i u = false := by
  rw [hasLike, List.any_eq_false]
  intro x hx
  rw [List.mem_filter] at hx
  simp only [Bool.not_eq_true'] at hx
  simp [hx.2]

theorem hasLike_append (rows : List LikeRow) (x : LikeRow) (q v : Nat) :
    hasLike (rows ++ [x]) q v = (hasLike rows q v || matchRow q v x) := by
  simp [hasLike, List.any_append]

theorem hasLike_filter_other (rows : List LikeRow) (i u q v : Nat)
    (h : ¬(q = i ∧ v = u)) :
    hasLike (rows.filter fun lr => !matchRow i u lr) q v = hasLike rows q v := by
  cases hr : hasLike rows q v with
  | true =>
    rw [hasLike, List.any_eq_true] at hr ⊢
    obtain ⟨x, hx, hm⟩ := hr
    refine ⟨x, List.mem_filter.mpr ⟨hx, ?_⟩, hm⟩
    rw [matchRow, Bool.and_eq_true, beq_iff_eq, beq_iff_eq] at hm
    simp only [Bool.not_eq_true', matchRow, Bool.and_eq_false_iff]
    by_cases hqi : q = i
    · right
      rw [beq_eq_false_iff_ne, hm.2]
      exact fun hvu => h ⟨hqi, hvu⟩
    · left
      rw [beq_eq_false_iff_ne, hm.1]
      exact hqi
  | false =>
    rw [hasLike, List.any_eq_false] at hr ⊢
    exact fun x hx => hr x (List.mem_filter.mp hx).1

theorem countLikes_split (rows : List LikeRow) (i u : Nat) :
    countLikes rows i
      = countLikes (rows.filter fun lr => !matchRow i u lr) i
        + (rows.filter (matchRow i u)).length := by
  induction rows with
  | nil => rfl
  | cons a as ih =>
    unfold countLikes at ih ⊢
    cases hm : matchRow i u a with
    | true =>
      have hi : (a.itemId == i) = true := by
        have h2 := hm
        rw [matchRow, Bool.and_eq_true] at h2
        exact h2.1
      simp only [List.filter_cons, hm, hi]
      simp only [Bool.not_true, Bool.false_eq_true, if_false, if_true, List.length_cons]
      omega
    | false =>
      simp only [List.filter_cons, hm]
      simp only [Bool.not_false, Bool.false_eq_true, if_false, if_true]
      cases hi : (a.itemId == i) with
      | true =>
        simp only [List.filter_cons, hi, if_true, List.length_cons]
        omega
      | false =>
        simp only [List.filter_cons, hi, Bool.false_eq_true, if_false]
        omega

theorem countLikes_append (rows : List LikeRow) (x : LikeRow) (i : Nat) :
    countLikes (rows ++ [x]) i
      = countLikes rows i + (if x.itemId == i then 1 else 0) := by
  simp only [countLikes, List.filter_append, List.length_append, List.filter_cons,
    List.filter_nil]
  cases h : (x.itemId == i) <;> simp [h]

theorem length_filter_match_of_hasLike (rows : List LikeRow) (i u : Nat)
    (h : hasLike rows i u = true) :
    1 ≤ (rows.filter (matchRow i u)).length := by
  rw [hasLike, List.any_eq_true] at h
  obtain ⟨x, hx, hm⟩ := h
  have : x ∈ rows.filter (matchRow i u) := List.mem_filter.mpr ⟨hx, hm⟩
  exact List.length_pos.mpr fun hnil => by simp [hnil] at this

end Facts

/-- C1: for every viewer and pagination parameters, GET /friends/requests
with no type filter returns exactly the page obtained by fetching all
incoming and all outgoing requests, concatenating them, sorting the combined
list by sentAt descending, and only then applying offset and limit to the
merged sorted set; the reported pagination total is the size of the merged
set, not of either direction alone. -/
theorem listRequests_unfiltered_merges_sorts_then_pages
    (db : DB) (now : Int) (viewer : Nat) (vl vo : QueryVal) :
    listRequests db now viewer none vl vo = specListRequests db now viewer vl vo := by
  unfold listRequests specListRequests
  simp only [jsFalsyStr, Bool.true_or, if_true]
  rw [SortingFacts.sortDesc_append_sortDesc]

/-- C6 counterexample: on the friends router a numeric limit of 500 is used
as given, not clamped to 100, and a numeric offset of -3 is used as given,
not floored at 0, so the claimed clamping does not hold for every list
endpoint. -/
theorem listFriends_no_clamp_counterexample :
    (listFriends emptyDB 1 none none (.num 500) (.num (-3))).pagination.limit = 500
    ∧ ¬((listFriends emptyDB 1 none none (.num 500) (.num (-3))).pagination.limit ≤ 100)
    ∧ (listFriends emptyDB 1 none none (.num 500) (.num (-3))).pagination.offset = -3
    ∧ ¬(0 ≤ (listFriends emptyDB 1 none none (.num 500) (.num (-3))).pagination.offset) := by
  decide

/-- C6 amended: on every list endpoint a non-numeric limit or offset falls
back to the defaults 20 and 0 rather than erroring; the clamping of a
numeric limit to at most 100, the replacement of a non-positive numeric
limit by 20 and the flooring of a negative numeric offset at 0 are applied
by the posts-router parsers only, while the friends, suggestions and
requests endpoints use a numeric value exactly as parsed. -/
theorem limit_offset_parsing_per_router (db : DB) (now : Int) (viewer : Nat)
    (s q t : Option String) (n m : Int) :
    ((listFriends db viewer s q .nonNumeric .nonNumeric).pagination.limit = 20
      ∧ (listFriends db viewer s q .nonNumeric .nonNumeric).pagination.offset = 0
      ∧ (listSuggestions db viewer .nonNumeric .nonNumeric).pagination.limit = 20
      ∧ (listSuggestions db viewer .nonNumeric .nonNumeric).pagination.offset = 0
      ∧ (listRequests db now viewer t .nonNumeric .nonNumeric).pagination.limit = 20
      ∧ (listRequests db now viewer t .nonNumeric .nonNumeric).pagination.offset = 0
      ∧ (listFeed db now viewer .nonNumeric .nonNumeric).pagination.limit = 20
      ∧ (listFeed db now viewer .nonNumeric .nonNumeric).pagination.offset = 0)
    ∧ ((listFeed db now viewer (.num n) (.num m)).pagination.limit
        = (if n ≤ 0 then 20 else min n 100)
      ∧ (listFeed db now viewer (.num n) (.num m)).pagination.offset
        = (if m < 0 then 0 else m))
    ∧ ((listFriends db viewer s q (.num n) (.num m)).pagination.limit = n
      ∧ (listFriends db viewer s q (.num n) (.num m)).pagination.offset = m
      ∧ (listSuggestions db viewer (.num n) (.num m)).pagination.limit = n
      ∧ (listSuggestions db viewer (.num n) (.num m)).pagination.offset = m
      ∧ (listRequests db now viewer t (.num n) (.num m)).pagination.limit = n
      ∧ (listRequests db now viewer t (.num n) (.num m)).pagination.offset = m) :=
  ⟨⟨rfl, rfl, rfl, rfl, rfl, rfl, rfl, rfl⟩, ⟨rfl, rfl⟩,
    rfl, rfl, rfl, rfl, rfl, rfl⟩

/-- C10: on the feed, every limit value that parses to an integer at most 0
is replaced by the default 20, so such a request behaves exactly like one
with no limit parameter and returns a page of at most 20 posts rather than
an empty page. -/
theorem feed_limit_nonpositive_uses_default
    (db : DB) (now : Int) (viewer : Nat) (n : Int) (vo : QueryVal) (h : n ≤ 0) :
    listFeed db now viewer (.num n) vo = listFeed db now viewer .absent vo
    ∧ (listFeed db now viewer (.num n) vo).pagination.limit = 20
    ∧ (listFeed db now viewer (.num n) vo).data.length ≤ 20 := by
  have hl : parseLimit (.num n) = 20 := by
    show (if n ≤ 0 then (20 : Int) else min n 100) = 20
    rw [if_pos h]
  have ha : parseLimit .absent = 20 := rfl
  refine ⟨?_, ?_, ?_⟩
  · unfold listFeed
    rw [hl, ha]
  · show parseLimit (.num n) = 20
    exact hl
  · show (List.map _ (sqlPage _ (parseLimit (.num n)) _)).length ≤ 20
    rw [List.length_map, hl]
    unfold sqlPage
    rw [if_neg (by norm_num), List.length_take]
    exact (Nat.min_le_left _ _).trans (by norm_num)

/-- Witness for the C10 theorem at limit -5 on the sample store. -/
theorem feed_limit_nonpositive_uses_default_witness :
    (-5 : Int) ≤ 0
    ∧ (listFeed sampleDB 0 1 (.num (-5)) .absent = listFeed sampleDB 0 1 .absent .absent
      ∧ (listFeed sampleDB 0 1 (.num (-5)) .absent).pagination.limit = 20
      ∧ (listFeed sampleDB 0 1 (.num (-5)) .absent).data.length ≤ 20) :=
  ⟨by decide, feed_limit_nonpositive_uses_default sampleDB 0 1 (-5) .absent (by decide)⟩

theorem jsTrim_replicate (n : Nat) (c : Char) (h : c.isWhitespace = false) :
    jsTrim (String.mk (List.replicate n c)) = String.mk (List.replicate n c) := by
  simp [jsTrim, List.dropWhile_replicate, h]

theorem mk_replicate_length (n : Nat) (c : Char) :
    (String.mk (List.replicate n c)).length = n := by
  show (List.replicate n c).length = n
  simp

theorem mk_replicate_ne_empty (n : Nat) (c : Char) (h : n ≠ 0) :
    String.mk (List.replicate n c) ≠ "" := by
  intro he
  have h0 := congrArg String.length he
  rw [mk_replicate_length] at h0
  have hz : ("" : String).length = 0 := by decide
  omega

/-- C9: for any author present in the store and any text whose trimmed form
is non-empty, creating a post with a 5001-character text fails with
validation_error and changes nothing, while a post with exactly 5000
characters succeeds; the length check reads the untrimmed input. -/
theorem createPost_five_thousand_boundary (db : DB) (now : Int) (uid : Nat)
    (t : String) (ht : jsTrim t ≠ "")
    (hu : (db.users.find? fun u => u.id == uid).isSome) :
    (t.length = 5001 →
      createPost db now uid t =
        ⟨db, .error ⟨400, "validation_error",
          "Post text must be 5000 characters or less"⟩⟩)
    ∧ (t.length = 5000 → exceptIsOk (createPost db now uid t).resp = true) := by
  constructor
  · intro h5
    unfold createPost
    rw [if_neg ht, if_pos (by omega)]
  · intro h5
    unfold createPost
    rw [if_neg ht, if_neg (by omega)]
    obtain ⟨u, hu2⟩ := Option.isSome_iff_exists.mp hu
    rw [hu2]
    rfl

/-- Witness for the C9 theorem: the two boundary texts on the sample store. -/
theorem createPost_five_thousand_boundary_witness :
    (jsTrim text5001 ≠ "" ∧ (sampleDB.users.find? fun u => u.id == 1).isSome
      ∧ createPost sampleDB 7 1 text5001 =
          ⟨sampleDB, .error ⟨400, "validation_error",
            "Post text must be 5000 characters or less"⟩⟩)
    ∧ (jsTrim text5000 ≠ ""
      ∧ exceptIsOk (createPost sampleDB 7 1 text5000).resp = true) := by
  have hx : ('x' : Char).isWhitespace = false := by decide
  have h1 : jsTrim text5001 ≠ "" := by
    rw [text5001, jsTrim_replicate _ _ hx]
    exact mk_replicate_ne_empty _ _ (by omega)
  have h0 : jsTrim text5000 ≠ "" := by
    rw [text5000, jsTrim_replicate _ _ hx]
    exact mk_replicate_ne_empty _ _ (by omega)
  have hu : (sampleDB.users.find? fun u => u.id == 1).isSome := by decide
  have hl1 : text5001.length = 5001 := mk_replicate_length 5001 'x'
  have hl0 : text5000.length = 5000 := mk_replicate_length 5000 'x'
  exact ⟨⟨h1, hu, (createPost_five_thousand_boundary sampleDB 7 1 text5001 h1 hu).1 hl1⟩,
    ⟨h0, (createPost_five_thousand_boundary sampleDB 7 1 text5000 h0 hu).2 hl0⟩⟩

/-- C8: every failing login, whether the normalized username matches no user
or the password does not match the stored hash, returns the identical
observable error: status 401, code invalid_credentials, message Invalid
username or password; the two causes are indistinguishable to the caller. -/
theorem login_failures_indistinguishable
    (db₁ : DB) (u₁ p₁ : String) (db₂ : DB) (u₂ p₂ : String)
    (h1u : u₁ ≠ "") (h1p : p₁ ≠ "") (h2u : u₂ ≠ "") (h2p : p₂ ≠ "")
    (hmiss : db₁.users.find? (fun u => u.username == lowerStr (jsTrim u₁)) = none)
    (hbad : ∃ usr, db₂.users.find? (fun u => u.username == lowerStr (jsTrim u₂)) = some usr
      ∧ usr.passwordHash ≠ "" ∧ checkPassword p₂ usr.passwordHash = false) :
    login db₁ u₁ p₁ = .error ⟨401, "invalid_credentials", "Invalid username or password"⟩
    ∧ login db₂ u₂ p₂ = login db₁ u₁ p₁ := by
  have e₁ : login db₁ u₁ p₁
      = .error ⟨401, "invalid_credentials", "Invalid username or password"⟩ := by
    unfold login
    rw [if_neg (by simp [h1u, h1p]), hmiss]
  obtain ⟨usr, hfind, hhash, hcmp⟩ := hbad
  have e₂ : login db₂ u₂ p₂
      = .error ⟨401, "invalid_credentials", "Invalid username or password"⟩ := by
    unfold login
    rw [if_neg (by simp [h2u, h2p]), hfind]
    simp [hhash, hcmp]
  exact ⟨e₁, e₂.trans e₁.symm⟩

/-- Witness for the C8 theorem: an unknown username on the empty store and a
wrong password for an existing user on the sample store. -/
theorem login_failures_indistinguishable_witness :
    (("ghost" : String) ≠ "" ∧ ("secret1" : String) ≠ ""
      ∧ ("alex" : String) ≠ "" ∧ ("wrongpass" : String) ≠ ""
      ∧ emptyDB.users.find? (fun u => u.username == lowerStr (jsTrim "ghost")) = none
      ∧ ∃ usr, sampleDB.users.find?
            (fun u => u.username == lowerStr (jsTrim "alex")) = some usr
          ∧ usr.passwordHash ≠ ""
          ∧ checkPassword "wrongpass" usr.passwordHash = false)
    ∧ (login emptyDB "ghost" "secret1"
        = .error ⟨401, "invalid_credentials", "Invalid username or password"⟩
      ∧ login sampleDB "alex" "wrongpass" = login emptyDB "ghost" "secret1") :=
  ⟨⟨by decide, by decide, by decide, by decide, by decide,
      ⟨⟨1, "alex", hashPassword "password", "👨", "online"⟩, by decide⟩⟩,
    login_failures_indistinguishable emptyDB "ghost" "secret1" sampleDB "alex" "wrongpass"
      (by decide) (by decide) (by decide) (by decide) (by decide)
      ⟨⟨1, "alex", hashPassword "password", "👨", "online"⟩, by decide⟩⟩

/-- C7: after a successful registration, registering any username whose
trimmed lowercase form is the same (a case variant, possibly with
surrounding whitespace) with a valid password fails with the 409
username_taken conflict and inserts no user row. -/
theorem register_case_variant_conflict (db : DB) (u p u₂ p₂ : String)
    (hfst : exceptIsOk (register db u p).resp = true)
    (hvar : lowerStr (jsTrim u₂) = lowerStr (jsTrim u))
    (hpw : 6 ≤ p₂.length) :
    register (register db u p).db u₂ p₂ =
      ⟨(register db u p).db,
        .error ⟨409, "username_taken", "Username is already taken"⟩⟩ := by
  unfold register at hfst
  by_cases h0 : u = "" ∨ p = ""
  · rw [if_pos h0] at hfst
    simp [exceptIsOk] at hfst
  rw [if_neg h0] at hfst
  by_cases h1 : (jsTrim u).length < 3
  · rw [if_pos h1] at hfst
    simp [exceptIsOk] at hfst
  rw [if_neg h1] at hfst
  by_cases h2 : p.length < 6
  · rw [if_pos h2] at hfst
    simp [exceptIsOk] at hfst
  rw [if_neg h2] at hfst
  cases hfind : db.users.find? fun x => lowerStr x.username == lowerStr (jsTrim u) with
  | some w =>
    rw [hfind] at hfst
    simp [exceptIsOk] at hfst
  | none =>
    have hdb : (register db u p).db
        = { db with
            users := db.users ++
              [⟨db.nextId, lowerStr (jsTrim u), hashPassword p, "👤", "online"⟩],
            nextId := db.nextId + 1 } := by
      unfold register
      rw [if_neg h0, if_neg h1, if_neg h2, hfind]
    have hlen2 : (jsTrim u₂).length = (jsTrim u).length := by
      have hc := congrArg String.length hvar
      rw [Facts.lowerStr_length, Facts.lowerStr_length] at hc
      exact hc
    have h3 : ¬((jsTrim u₂).length < 3) := by omega
    have hu2 : u₂ ≠ "" := by
      intro he
      subst he
      have hz : (jsTrim "").length = 0 := by decide
      omega
    have hp2ne : p₂ ≠ "" := by
      intro he
      subst he
      have hz : ("" : String).length = 0 := by decide
      omega
    have h02 : ¬(u₂ = "" ∨ p₂ = "") := by
      intro hor
      rcases hor with h | h
      · exact hu2 h
      · exact hp2ne h
    have hp2 : ¬(p₂.length < 6) := by omega
    have hmem : (⟨db.nextId, lowerStr (jsTrim u), hashPassword p, "👤", "online"⟩ : User)
        ∈ db.users ++
          [⟨db.nextId, lowerStr (jsTrim u), hashPassword p, "👤", "online"⟩] := by
      simp
    have hpred : (lowerStr (lowerStr (jsTrim u)) == lowerStr (jsTrim u₂)) = true := by
      rw [hvar, Facts.lowerStr_idem]
      exact beq_self_eq_true _
    have hfind2 : (List.find? (fun x : User => lowerStr x.username == lowerStr (jsTrim u₂))
        (db.users ++
          [⟨db.nextId, lowerStr (jsTrim u), hashPassword p, "👤", "online"⟩])).isSome := by
      rw [List.find?_isSome]
      exact ⟨⟨db.nextId, lowerStr (jsTrim u), hashPassword p, "👤", "online"⟩, hmem, hpred⟩
    obtain ⟨w, hw⟩ := Option.isSome_iff_exists.mp hfind2
    rw [hdb]
    unfold register
    rw [if_neg h02, if_neg h3, if_neg hp2]
    have husers : ({ db with
        users := db.users ++
          [⟨db.nextId, lowerStr (jsTrim u), hashPassword p, "👤", "online"⟩],
        nextId := db.nextId + 1 } : DB).users
        = db.users ++
          [⟨db.nextId, lowerStr (jsTrim u), hashPassword p, "👤", "online"⟩] := rfl
    rw [husers, hw]

/-- Witness for the C7 theorem: registering Alice and then a spaced
uppercase variant on the empty store. -/
theorem register_case_variant_conflict_witness :
    (exceptIsOk (register emptyDB "Alice" "secret1").resp = true
      ∧ lowerStr (jsTrim "  ALICE ") = lowerStr (jsTrim "Alice")
      ∧ 6 ≤ ("secret2" : String).length)
    ∧ register (register emptyDB "Alice" "secret1").db "  ALICE " "secret2" =
        ⟨(register emptyDB "Alice" "secret1").db,
          .error ⟨409, "username_taken", "Username is already taken"⟩⟩ :=
  ⟨⟨by decide, by decide, by decide⟩,
    register_case_variant_conflict emptyDB "Alice" "secret1" "  ALICE " "secret2"
      (by decide) (by decide) (by decide)⟩

/-- C2: for every sender and non-blank target username, the request-creation
checks run in exactly the router's order: self-target (validation_error),
missing target user (404 user_not_found), existing friendship sender to
target (already_friends), existing request sender to target
(request_already_sent), existing reverse request (request_exists, with no
friendship created and the store untouched); only when all checks pass is
one pending request row with mutual_friends 0 inserted and answered with
type outgoing. -/
theorem sendFriendRequest_check_order (db : DB) (now : Int) (senderId : Nat)
    (senderUsername uname : String) (hne : jsTrim uname ≠ "") :
    SendCascadeSpec db now senderId senderUsername uname := by
  unfold SendCascadeSpec
  refine ⟨?_, ?_, ?_⟩
  · intro hself
    simp [sendFriendRequest, hne, hself]
  · intro hns hfind
    simp [sendFriendRequest, hne, hns, hfind]
  · intro target hns hfind
    refine ⟨?_, ?_, ?_, ?_⟩
    · intro hfs
      simp [sendFriendRequest, hne, hns, hfind, hfs]
    · intro hfs hfwd
      simp [sendFriendRequest, hne, hns, hfind, hfs, hfwd]
    · intro hfs hfwd hrev
      simp [sendFriendRequest, hne, hns, hfind, hfs, hfwd, hrev]
    · intro hfs hfwd hrev
      simp [sendFriendRequest, hne, hns, hfind, hfs, hfwd, hrev]

/-- Witness for the C2 theorem on the sample store. -/
theorem sendFriendRequest_check_order_witness :
    jsTrim "Bob" ≠ "" ∧ SendCascadeSpec sampleDB 5 1 "alex" "Bob" :=
  ⟨by decide, sendFriendRequest_check_order sampleDB 5 1 "alex" "Bob" (by decide)⟩

/-- C4: TogglePostLike answers 404 not_found and leaves the store unchanged
when the post is absent; otherwise it returns liked true exactly when no
(post, user) like row existed before the call (one is inserted) and liked
false exactly when one existed (it is deleted), and the returned likes value
is the post total re-counted from the store after the mutation. -/
theorem togglePostLike_contract (db : DB) (now : Int) (uid pid : Nat) :
    ((db.posts.find? fun p => p.id == pid) = none →
      togglePostLike db now uid pid = ⟨db, .error ⟨404, "not_found", "Post not found"⟩⟩)
    ∧ ((db.posts.find? fun p => p.id == pid).isSome →
      (togglePostLike db now uid pid).resp
        = .ok (!hasLike db.postLikes pid uid,
            countLikes (togglePostLike db now uid pid).db.postLikes pid)
      ∧ (hasLike db.postLikes pid uid = false →
          (togglePostLike db now uid pid).db.postLikes
            = db.postLikes ++ [⟨pid, uid, now⟩])
      ∧ (hasLike db.postLikes pid uid = true →
          (togglePostLike db now uid pid).db.postLikes
            = db.postLikes.filter fun lr => !matchRow pid uid lr)) := by
  constructor
  · intro h
    unfold togglePostLike
    rw [if_pos (by simp [h])]
  · intro h
    have hn : ¬((db.posts.find? fun p => p.id == pid).isNone = true) := by
      intro he
      rw [Option.isNone_iff_eq_none] at he
      rw [he] at h
      simp at h
    refine ⟨?_, ?_, ?_⟩
    · unfold togglePostLike
      rw [if_neg hn]
    · intro hl
      unfold togglePostLike
      rw [if_neg hn]
      show toggleLikeRows db.postLikes pid uid now = db.postLikes ++ [⟨pid, uid, now⟩]
      unfold toggleLikeRows
      rw [if_neg (by simp [hl])]
    · intro hl
      unfold togglePostLike
      rw [if_neg hn]
      show toggleLikeRows db.postLikes pid uid now
        = db.postLikes.filter fun lr => !matchRow pid uid lr
      unfold toggleLikeRows
      rw [if_pos hl]

/-- Witness for the C4 theorem: an absent post id and an existing one on the
sample store. -/
theorem togglePostLike_contract_witness :
    ((sampleDB.posts.find? fun p => p.id == 999) = none
      ∧ togglePostLike sampleDB 9 1 999
          = ⟨sampleDB, .error ⟨404, "not_found", "Post not found"⟩⟩)
    ∧ ((sampleDB.posts.find? fun p => p.id == 40).isSome
      ∧ ((togglePostLike sampleDB 9 1 40).resp
          = .ok (!hasLike sampleDB.postLikes 40 1,
              countLikes (togglePostLike sampleDB 9 1 40).db.postLikes 40)
        ∧ (hasLike sampleDB.postLikes 40 1 = false →
            (togglePostLike sampleDB 9 1 40).db.postLikes
              = sampleDB.postLikes ++ [⟨40, 1, 9⟩])
        ∧ (hasLike sampleDB.postLikes 40 1 = true →
            (togglePostLike sampleDB 9 1 40).db.postLikes
              = sampleDB.postLikes.filter fun lr => !matchRow 40 1 lr))) :=
  ⟨⟨by decide, (togglePostLike_contract sampleDB 9 1 999).1 (by decide)⟩,
    ⟨by decide, (togglePostLike_contract sampleDB 9 1 40).2 (by decide)⟩⟩

theorem toggleLikeRows_twice_not_liked (rows : List LikeRow) (i u : Nat) (t₁ t₂ : Int)
    (h : hasLike rows i u = false) :
    toggleLikeRows (toggleLikeRows rows i u t₁) i u t₂ = rows := by
  have hP : toggleLikeRows rows i u t₁ = rows ++ [⟨i, u, t₁⟩] := by
    unfold toggleLikeRows
    rw [if_neg (by simp [h])]
  have hA : hasLike (rows ++ [⟨i, u, t₁⟩]) i u = true := by
    rw [Facts.hasLike_append]
    simp [matchRow]
  rw [hP]
  unfold toggleLikeRows
  rw [if_pos hA, List.filter_append, Facts.filter_not_match_of_not_hasLike rows i u h]
  simp [matchRow]

theorem toggleLikeRows_twice_liked (rows : List LikeRow) (i u : Nat) (t₁ t₂ : Int)
    (h : hasLike rows i u = true) :
    toggleLikeRows (toggleLikeRows rows i u t₁) i u t₂
      = (rows.filter fun lr => !matchRow i u lr) ++ [⟨i, u, t₂⟩] := by
  unfold toggleLikeRows
  rw [if_pos h, if_neg (by simp [Facts.hasLike_filter_not])]

/-- Toggling twice restores the observable like state, provided at most one
like row exists per pair: the flag the first toggle flips, the re-counted
total, and membership for every user of the item. -/
theorem toggle_twice_restores_rows (rows : List LikeRow) (i u : Nat) (t₁ t₂ : Int)
    (hdup : (rows.filter (matchRow i u)).length ≤ 1) :
    (!hasLike (toggleLikeRows rows i u t₁) i u) = hasLike rows i u
    ∧ countLikes (toggleLikeRows (toggleLikeRows rows i u t₁) i u t₂) i
        = countLikes rows i
    ∧ ∀ v, hasLike (toggleLikeRows (toggleLikeRows rows i u t₁) i u t₂) i v
        = hasLike rows i v := by
  cases h : hasLike rows i u with
  | false =>
    have hP : toggleLikeRows rows i u t₁ = rows ++ [⟨i, u, t₁⟩] := by
      unfold toggleLikeRows
      rw [if_neg (by simp [h])]
    have hD := toggleLikeRows_twice_not_liked rows i u t₁ t₂ h
    refine ⟨?_, ?_, ?_⟩
    · rw [hP, Facts.hasLike_append]
      simp [h, matchRow]
    · rw [hD]
    · intro v
      rw [hD]
  | true =>
    have hm1 := Facts.length_filter_match_of_hasLike rows i u h
    have hsplit := Facts.countLikes_split rows i u
    have hP : toggleLikeRows rows i u t₁ = rows.filter fun lr => !matchRow i u lr := by
      unfold toggleLikeRows
      rw [if_pos h]
    have hD := toggleLikeRows_twice_liked rows i u t₁ t₂ h
    refine ⟨?_, ?_, ?_⟩
    · simp [hP, Facts.hasLike_filter_not, h]
    · rw [hD, Facts.countLikes_append]
      simp only [beq_self_eq_true, if_true]
      omega
    · intro v
      rw [hD, Facts.hasLike_append]
      by_cases hv : v = u
      · subst hv
        rw [h]
        simp [matchRow]
      · have hother := Facts.hasLike_filter_other rows i u i v fun hc => hv hc.2
        have hne : (u == v) = false := beq_eq_false_iff_ne.mpr fun h2 => hv h2.symm
        rw [hother]
        simp [matchRow, hne]

/-- C3: toggling a like twice for the same pair of an existing post (or of
an existing comment), with no interleaving operation, makes the second call
return the liked flag and likes count that held before the first call, and
restores the set of like rows of that item (membership of every user) to
its original value; the data-model invariant of at most one like row per
(item, user) pair is assumed. -/
theorem double_toggle_restores (db : DB) (now₁ now₂ : Int)
    (uid pid pid₂ cid : Nat)
    (hpost : (db.posts.find? fun p => p.id == pid).isSome)
    (hdup : (db.postLikes.filter (matchRow pid uid)).length ≤ 1)
    (hcomment : (db.comments.find? fun c => c.id == cid && c.postId == pid₂).isSome)
    (hdupc : (db.commentLikes.filter (matchRow cid uid)).length ≤ 1) :
    ((togglePostLike (togglePostLike db now₁ uid pid).db now₂ uid pid).resp
        = .ok (hasLike db.postLikes pid uid, countLikes db.postLikes pid)
      ∧ ∀ v, hasLike
          (togglePostLike (togglePostLike db now₁ uid pid).db now₂ uid pid).db.postLikes
          pid v
        = hasLike db.postLikes pid v)
    ∧ ((toggleCommentLike (toggleCommentLike db now₁ uid pid₂ cid).db now₂ uid pid₂ cid).resp
        = .ok (hasLike db.commentLikes cid uid, countLikes db.commentLikes cid)
      ∧ ∀ v, hasLike
          (toggleCommentLike (toggleCommentLike db now₁ uid pid₂ cid).db
            now₂ uid pid₂ cid).db.commentLikes
          cid v
        = hasLike db.commentLikes cid v) := by
  obtain ⟨pa, pb, pc⟩ :=
    toggle_twice_restores_rows db.postLikes pid uid now₁ now₂ hdup
  obtain ⟨ca, cb, cc⟩ :=
    toggle_twice_restores_rows db.commentLikes cid uid now₁ now₂ hdupc
  have hn : ¬((db.posts.find? fun p => p.id == pid).isNone = true) := by
    intro he
    rw [Option.isNone_iff_eq_none] at he
    rw [he] at hpost
    simp at hpost
  have hnc : ¬((db.comments.find? fun c => c.id == cid && c.postId == pid₂).isNone = true) := by
    intro he
    rw [Option.isNone_iff_eq_none] at he
    rw [he] at hcomment
    simp at hcomment
  have e₁ : (togglePostLike db now₁ uid pid).db
      = { db with postLikes := toggleLikeRows db.postLikes pid uid now₁ } := by
    unfold togglePostLike
    rw [if_neg hn]
  have hn₂ : ¬(((({ db with postLikes := toggleLikeRows db.postLikes pid uid now₁ } : DB)).posts.find?
      fun p => p.id == pid).isNone = true) := hn
  have e₂ : togglePostLike
        { db with postLikes := toggleLikeRows db.postLikes pid uid now₁ } now₂ uid pid
      = ⟨{ db with postLikes :=
            toggleLikeRows (toggleLikeRows db.postLikes pid uid now₁) pid uid now₂ },
          .ok (!hasLike (toggleLikeRows db.postLikes pid uid now₁) pid uid,
            countLikes
              (toggleLikeRows (toggleLikeRows db.postLikes pid uid now₁) pid uid now₂)
              pid)⟩ := by
    unfold togglePostLike
    rw [if_neg hn₂]
  have f₁ : (toggleCommentLike db now₁ uid pid₂ cid).db
      = { db with commentLikes := toggleLikeRows db.commentLikes cid uid now₁ } := by
    unfold toggleCommentLike
    rw [if_neg hnc]
  have hnc₂ : ¬(((({ db with commentLikes := toggleLikeRows db.commentLikes cid uid now₁ } : DB)).comments.find?
      fun c => c.id == cid && c.postId == pid₂).isNone = true) := hnc
  have f₂ : toggleCommentLike
        { db with commentLikes := toggleLikeRows db.commentLikes cid uid now₁ } now₂ uid pid₂ cid
      = ⟨{ db with commentLikes :=
            toggleLikeRows (toggleLikeRows db.commentLikes cid uid now₁) cid uid now₂ },
          .ok (!hasLike (toggleLikeRows db.commentLikes cid uid now₁) cid uid,
            countLikes
              (toggleLikeRows (toggleLikeRows db.commentLikes cid uid now₁) cid uid now₂)
              cid)⟩ := by
    unfold toggleCommentLike
    rw [if_neg hnc₂]
  refine ⟨⟨?_, ?_⟩, ⟨?_, ?_⟩⟩
  · rw [e₁, e₂, pa, pb]
  · intro v
    rw [e₁, e₂]
    exact pc v
  · rw [f₁, f₂, ca, cb]
  · intro v
    rw [f₁, f₂]
    exact cc v

/-- Witness for the C3 theorem: post 40 and comment 50 of the sample store,
toggled twice by user 1 (who has not liked post 40 and has liked comment
50). -/
theorem double_toggle_restores_witness :
    ((sampleDB.posts.find? fun p => p.id == 40).isSome
      ∧ (sampleDB.postLikes.filter (matchRow 40 1)).length ≤ 1
      ∧ (sampleDB.comments.find? fun c => c.id == 50 && c.postId == 40).isSome
      ∧ (sampleDB.commentLikes.filter (matchRow 50 1)).length ≤ 1)
    ∧ (((togglePostLike (togglePostLike sampleDB 11 1 40).db 12 1 40).resp
        = .ok (hasLike sampleDB.postLikes 40 1, countLikes sampleDB.postLikes 40)
      ∧ ∀ v, hasLike
          (togglePostLike (togglePostLike sampleDB 11 1 40).db 12 1 40).db.postLikes 40 v
        = hasLike sampleDB.postLikes 40 v)
    ∧ ((toggleCommentLike (toggleCommentLike sampleDB 11 1 40 50).db 12 1 40 50).resp
        = .ok (hasLike sampleDB.commentLikes 50 1, countLikes sampleDB.commentLikes 50)
      ∧ ∀ v, hasLike
          (toggleCommentLike (toggleCommentLike sampleDB 11 1 40 50).db
            12 1 40 50).db.commentLikes 50 v
        = hasLike sampleDB.commentLikes 50 v)) :=
  ⟨⟨by decide, by decide, by decide, by decide⟩,
    double_toggle_restores sampleDB 11 12 1 40 40 50
      (by decide) (by decide) (by decide) (by decide)⟩

/-- C5: for valid limit and offset values (limit between 1 and 100 so that
no parser rewrites it, offset non-negative) and a store whose posts all
have an author row, each of the four list endpoints returns a data array of
length min(limit, max(0, total - offset)), and the reported total is
independent of the limit and offset parameters. -/
theorem pagination_formula (db : DB) (now : Int) (viewer : Nat)
    (status? search? type? : Option String) (l o : Int) (vl vo : QueryVal)
    (h1 : 1 ≤ l) (h2 : l ≤ 100) (h3 : 0 ≤ o)
    (hint : ∀ p ∈ db.posts, (db.users.find? fun u => u.id == p.userId).isSome) :
    PaginationFormulaSpec db now viewer status? search? type? l o vl vo := by
  have hl0 : (0 : Int) ≤ l := by omega
  have hjl : (feedJoinedPosts db).length = db.posts.length := by
    unfold feedJoinedPosts
    apply Facts.length_filterMap_of_isSome
    intro p hp
    obtain ⟨u, hu⟩ := Option.isSome_iff_exists.mp (hint p hp)
    rw [hu]
    rfl
  unfold PaginationFormulaSpec
  refine ⟨⟨?_, ?_⟩, ⟨?_, ?_⟩, ⟨?_, ?_⟩, ⟨?_, ?_⟩⟩
  · show (List.map _ (sqlPage
        (sortAsc (fun fu => fu.2.username) (friendsFiltered db viewer status? search?))
        l o)).length
      = min l.toNat ((friendsFiltered db viewer status? search?).length - o.toNat)
    rw [List.length_map, Facts.length_sqlPage _ l o hl0, SortingFacts.length_sortAsc]
  · rfl
  · show (List.map _ (sqlPage
        (sortDesc (fun su => su.1.createdAt) (suggestionsJoined db viewer))
        l o)).length
      = min l.toNat ((suggestionsJoined db viewer).length - o.toNat)
    rw [List.length_map, Facts.length_sqlPage _ l o hl0, SortingFacts.length_sortDesc]
  · rfl
  · show (jsSlice (sortDesc (fun e => e.sentAt)
        ((if jsFalsyStr type? || type? == some "incoming" then
            sortDesc (fun e => e.sentAt) (incomingRequests db now viewer) else [])
          ++ (if jsFalsyStr type? || type? == some "outgoing" then
            sortDesc (fun e => e.sentAt) (outgoingRequests db now viewer) else [])))
        o (o + l)).length
      = min l.toNat ((sortDesc (fun e => e.sentAt)
        ((if jsFalsyStr type? || type? == some "incoming" then
            sortDesc (fun e => e.sentAt) (incomingRequests db now viewer) else [])
          ++ (if jsFalsyStr type? || type? == some "outgoing" then
            sortDesc (fun e => e.sentAt) (outgoingRequests db now viewer) else []))).length
          - o.toNat)
    rw [Facts.length_jsSlice _ o l h3 hl0]
  · rfl
  · have hpl : parseLimit (.num l) = l := by
      show (if l ≤ 0 then (20 : Int) else min l 100) = l
      rw [if_neg (by omega), min_eq_left h2]
    have hpo : parseOffset (.num o) = o := by
      show (if o < 0 then (0 : Int) else o) = o
      rw [if_neg (by omega)]
    show (List.map _ (sqlPage
        (sortDesc (fun pu => pu.1.createdAt) (feedJoinedPosts db))
        (parseLimit (.num l)) (parseOffset (.num o)))).length
      = min l.toNat (db.posts.length - o.toNat)
    rw [hpl, hpo, List.length_map, Facts.length_sqlPage _ l o hl0,
      SortingFacts.length_sortDesc, hjl]
  · rfl

/-- Witness for the C5 theorem at limit 5, offset 1 on the sample store. -/
theorem pagination_formula_witness :
    ((1 : Int) ≤ 5 ∧ (5 : Int) ≤ 100 ∧ (0 : Int) ≤ 1
      ∧ ∀ p ∈ sampleDB.posts, (sampleDB.users.find? fun u => u.id == p.userId).isSome)
    ∧ PaginationFormulaSpec sampleDB 0 1 (some "online") none none 5 1 .absent .absent :=
  ⟨⟨by decide, by decide, by decide, by decide⟩,
    pagination_formula sampleDB 0 1 (some "online") none none 5 1 .absent .absent
      (by decide) (by decide) (by decide) (by decide)⟩

end Social
